import Mathlib

/-!
Verification development for the per-frame tracking core of an ORB-SLAM3
style visual(-inertial) SLAM system.  The repository ships only the
interface header `src/include/Tracking.h`; the tracking-state enumeration
and the inline accessor `GetLastKeyFrame` are embedded directly from that
header.  Every method whose body is not in the repository (`Track`,
`TrackLocalMap`, `UpdateLocalMap`, `NeedNewKeyFrame`, `CreateNewKeyFrame`,
`PreintegrateIMU`, `StereoInitialization`) is modelled from the
natural-language specification, as documented on each definition.
-/

namespace Tracking

/-- The tracking-state enumeration, embedded from `eTrackingState` in
`src/include/Tracking.h` lines 179-187: `SYSTEM_NOT_READY = -1`,
`NO_IMAGES_YET = 0`, `NOT_INITIALIZED = 1`, `OK = 2`, `RECENTLY_LOST = 3`,
`LOST = 4`, `OK_KLT = 5`. -/
inductive eTrackingState where
  | SYSTEM_NOT_READY
  | NO_IMAGES_YET
  | NOT_INITIALIZED
  | OK
  | RECENTLY_LOST
  | LOST
  | OK_KLT
deriving DecidableEq, Repr, Fintype

/-- The integer value the header assigns to each enumerator of
`eTrackingState` (lines 180-186 of `src/include/Tracking.h`). -/
def eTrackingState.toInt : eTrackingState → Int
  | .SYSTEM_NOT_READY => -1
  | .NO_IMAGES_YET => 0
  | .NOT_INITIALIZED => 1
  | .OK => 2
  | .RECENTLY_LOST => 3
  | .LOST => 4
  | .OK_KLT => 5

/-- The fields of the `Tracking` class relevant to the pure accessor
`GetLastKeyFrame`, embedded from `src/include/Tracking.h`.  Keyframe
pointers are modelled as optional keyframe identifiers (`none` models a
null pointer). -/
structure TrackingShell where
  mState : eTrackingState
  mLastProcessedState : eTrackingState
  mSensor : Nat
  mnMatchesInliers : Nat
  mpReferenceKF : Option Nat
  mvpLocalKeyFrames : List Nat
  mvpLocalMapPoints : List Nat
  mpLastKeyFrame : Option Nat
  mnLastKeyFrameId : Nat
  mnLastRelocFrameId : Nat
  mbOnlyTracking : Bool
  mbMapUpdated : Bool
deriving DecidableEq, Repr

/-- `GetLastKeyFrame`, embedded from its inline body in
`src/include/Tracking.h` lines 159-162 (`return mpLastKeyFrame;`): it
returns the stored last-keyframe reference and, having no side effect,
leaves the object state unchanged.  The shallow embedding returns the
value together with the (unchanged) state. -/
def GetLastKeyFrame (t : TrackingShell) : Option Nat × TrackingShell :=
  (t.mpLastKeyFrame, t)

/-- Claim C2: the recovery state machine's state space consists of exactly
the seven states declared by `eTrackingState` — a not-ready state, a
no-images state, `NOT_INITIALIZED`, `OK`, `RECENTLY_LOST`, `LOST` and the
degraded `OK_KLT` variant; every value of the tracking-state field is one
of these seven, they are pairwise distinguished by their header integer
values, and those values are -1, 0, 1, 2, 3, 4, 5. -/
theorem eTrackingState_exactly_seven_states :
    (∀ s : eTrackingState,
      s = .SYSTEM_NOT_READY ∨ s = .NO_IMAGES_YET ∨ s = .NOT_INITIALIZED ∨
      s = .OK ∨ s = .RECENTLY_LOST ∨ s = .LOST ∨ s = .OK_KLT) ∧
    (∀ a b : eTrackingState, a.toInt = b.toInt → a = b) ∧
    eTrackingState.toInt .SYSTEM_NOT_READY = -1 ∧
    eTrackingState.toInt .NO_IMAGES_YET = 0 ∧
    eTrackingState.toInt .NOT_INITIALIZED = 1 ∧
    eTrackingState.toInt .OK = 2 ∧
    eTrackingState.toInt .RECENTLY_LOST = 3 ∧
    eTrackingState.toInt .LOST = 4 ∧
    eTrackingState.toInt .OK_KLT = 5 := by
  refine ⟨fun s => by cases s <;> simp, fun a b h => ?_, rfl, rfl, rfl, rfl, rfl, rfl, rfl⟩
  cases a <;> cases b <;> simp [eTrackingState.toInt] at h <;> rfl

/-- Witness for claim C2's theorem at concrete states: the injectivity of
the header's integer encoding applied at `OK` and `OK`, together with the
encoding value of `LOST`. -/
theorem eTrackingState_exactly_seven_states_witness :
    eTrackingState.OK = eTrackingState.OK ∧ eTrackingState.toInt .LOST = 4 :=
  ⟨eTrackingState_exactly_seven_states.2.1 .OK .OK rfl,
   eTrackingState_exactly_seven_states.2.2.2.2.2.2.2.1⟩

/-- Claim C10: `GetLastKeyFrame` is a pure accessor — it returns exactly
the stored `mpLastKeyFrame` field, leaves every field of the tracking
state unchanged, and two successive calls with no intervening operation
return the same keyframe. -/
theorem GetLastKeyFrame_pure_accessor (t : TrackingShell) :
    (GetLastKeyFrame t).1 = t.mpLastKeyFrame ∧
    (GetLastKeyFrame t).2 = t ∧
    (GetLastKeyFrame (GetLastKeyFrame t).2).1 = (GetLastKeyFrame t).1 :=
  ⟨rfl, rfl, rfl⟩

/-- Modelled from the spec: the body of `Track` (declared at
`src/include/Tracking.h` line 277 but absent from the repository) and the
recovery controller of spec section 4.8 need per-session recovery
parameters.  `minInliers` is the minimum-inlier threshold of the Local Map
Refiner (spec section 4.6), `graceFrames` the bounded `RECENTLY_LOST`
grace period (spec sections 4.8 and 8), `relocFailBound` the bounded
number of consecutive relocalization failures after which a new map is
started (spec sections 4.8 and 7), and `fused` whether the session is
sensor-fusion enabled (spec section 4.8). -/
structure RecoveryCfg where
  minInliers : Nat
  graceFrames : Nat
  relocFailBound : Nat
  fused : Bool
deriving DecidableEq, Repr

/-- Modelled from the spec: the mutable recovery state carried across
frames by the missing `Track` body — the tracking state field `mState`
(header line 189), the number of frames spent in `RECENTLY_LOST`, and the
count of consecutive relocalization failures while `LOST`. -/
structure RecState where
  mState : eTrackingState
  lostFrames : Nat
  relocFails : Nat
deriving DecidableEq, Repr

/-- Modelled from the spec: the per-frame observation the recovery
controller reacts to — the number of matches (inliers) the Pose Tracker
plus Local Map Refiner achieve on that frame, stored in the source in
`mnMatchesInliers` (header line 476). -/
structure FrameObs where
  nMatches : Nat
deriving DecidableEq, Repr

/-- Modelled from the spec: one step of the recovery state machine of
spec section 4.8, standing in for the missing bodies of `Track`,
`TrackLocalMap` and `Relocalization`.  A frame is declared tracked when
its match count reaches the minimum-inlier threshold (section 4.6).
Transitions: `NO_IMAGES_YET` anchors initialization; `NOT_INITIALIZED`
moves to `OK` only on success (section 4.3); from `OK` (and its degraded
variant) a failed frame moves a sensor-fusion session to `RECENTLY_LOST`
and a vision-only session directly to `LOST` (section 4.8); from
`RECENTLY_LOST` recovery returns has `OK`, and the elapsed grace period
falls to `LOST`; from `LOST` relocalization success returns to `OK` and
the bounded consecutive-failure escalation starts a new map
(`NOT_INITIALIZED`, sections 4.8 and 7). -/
def recStep (cfg : RecoveryCfg) (s : RecState) (f : FrameObs) : RecState :=
  match s.mState with
  | .SYSTEM_NOT_READY => s
  | .NO_IMAGES_YET => { s with mState := .NOT_INITIALIZED }
  | .NOT_INITIALIZED =>
      if cfg.minInliers ≤ f.nMatches then { s with mState := .OK } else s
  | .OK =>
      if cfg.minInliers ≤ f.nMatches then s
      else if cfg.fused then { mState := .RECENTLY_LOST, lostFrames := 1, relocFails := 0 }
      else { mState := .LOST, lostFrames := 0, relocFails := 0 }
  | .OK_KLT =>
      if cfg.minInliers ≤ f.nMatches then { s with mState := .OK }
      else if cfg.fused then { mState := .RECENTLY_LOST, lostFrames := 1, relocFails := 0 }
      else { mState := .LOST, lostFrames := 0, relocFails := 0 }
  | .RECENTLY_LOST =>
      if cfg.minInliers ≤ f.nMatches then { mState := .OK, lostFrames := 0, relocFails := 0 }
      else if cfg.graceFrames ≤ s.lostFrames then
        { mState := .LOST, lostFrames := 0, relocFails := 0 }
      else { s with lostFrames := s.lostFrames + 1 }
  | .LOST =>
      if cfg.minInliers ≤ f.nMatches then { mState := .OK, lostFrames := 0, relocFails := 0 }
      else if cfg.relocFailBound ≤ s.relocFails + 1 then
        { mState := .NOT_INITIALIZED, lostFrames := 0, relocFails := 0 }
      else { s with relocFails := s.relocFails + 1 }

/-- Modelled from the spec: processing a sequence of frames is the
left fold of the recovery step over the sequence. -/
def recRun (cfg : RecoveryCfg) (s : RecState) (fs : List FrameObs) : RecState :=
  fs.foldl (recStep cfg) s

/-- The set of states a low-match frame can leave the machine in once
tracking had been established: `RECENTLY_LOST`, `LOST`, or (after the
relocalization-failure escalation abandons the map) `NOT_INITIALIZED`. -/
def lowSafe (s : eTrackingState) : Prop :=
  s = .RECENTLY_LOST ∨ s = .LOST ∨ s = .NOT_INITIALIZED

theorem recStep_lowSafe (cfg : RecoveryCfg) (s : RecState) (f : FrameObs)
    (hlow : f.nMatches < cfg.minInliers)
    (hs : s.mState = .OK ∨ lowSafe s.mState) :
    lowSafe (recStep cfg s f).mState := by
  obtain ⟨ms, lf, rf⟩ := s
  have hnot : ¬ cfg.minInliers ≤ f.nMatches := by omega
  rcases hs with h | h | h | h <;> simp only at h <;> subst h <;>
    simp only [recStep, hnot, if_false] <;>
    first
      | (split <;> simp [lowSafe])
      | simp [lowSafe]

theorem recRun_lowSafe (cfg : RecoveryCfg) (fs : List FrameObs) :
    ∀ s : RecState, (∀ f ∈ fs, f.nMatches < cfg.minInliers) →
    (s.mState = .OK ∨ lowSafe s.mState) → fs ≠ [] →
    lowSafe (recRun cfg s fs).mState := by
  induction fs with
  | nil => intro s _ _ hne; exact absurd rfl hne
  | cons f fs ih =>
      intro s hlow hs _
      have h1 : lowSafe (recStep cfg s f).mState :=
        recStep_lowSafe cfg s f (hlow f (by simp)) hs
      rcases List.eq_nil_or_concat fs with hfs | _
      · subst hfs; exact h1
      · have : recRun cfg s (f :: fs) = recRun cfg (recStep cfg s f) fs := rfl
        rw [this]
        refine ih (recStep cfg s f) (fun g hg => hlow g (by simp [hg])) (Or.inr h1) ?_
        rintro rfl
        simp_all

/-- Claim C1 (amended): for every nonempty sequence of processed frames in
which each frame has fewer matches than the minimum-inlier threshold,
starting from tracking state `OK`, the state after processing the
sequence (hence, by instantiating the theorem at every prefix, after each
such frame) is `RECENTLY_LOST`, `LOST`, or — once the bounded
relocalization-failure escalation abandons the map — `NOT_INITIALIZED`,
and is never `OK`. -/
theorem low_match_frames_never_ok (cfg : RecoveryCfg) (s : RecState)
    (fs : List FrameObs) (hs : s.mState = .OK)
    (hlow : ∀ f ∈ fs, f.nMatches < cfg.minInliers) (hne : fs ≠ []) :
    ((recRun cfg s fs).mState = .RECENTLY_LOST ∨
     (recRun cfg s fs).mState = .LOST ∨
     (recRun cfg s fs).mState = .NOT_INITIALIZED) ∧
    (recRun cfg s fs).mState ≠ .OK := by
  have h := recRun_lowSafe cfg fs s hlow (Or.inl hs) hne
  exact ⟨h, by rcases h with h | h | h <;> simp [h]⟩

/-- Witness for claim C1's amended theorem at a concrete input: a fused
session with minimum-inlier threshold 5, starting in `OK`, fed one frame
with 0 matches. -/
theorem low_match_frames_never_ok_witness :
    ((recRun ⟨5, 2, 2, true⟩ ⟨.OK, 0, 0⟩ [⟨0⟩]).mState = .RECENTLY_LOST ∨
     (recRun ⟨5, 2, 2, true⟩ ⟨.OK, 0, 0⟩ [⟨0⟩]).mState = .LOST ∨
     (recRun ⟨5, 2, 2, true⟩ ⟨.OK, 0, 0⟩ [⟨0⟩]).mState = .NOT_INITIALIZED) ∧
    (recRun ⟨5, 2, 2, true⟩ ⟨.OK, 0, 0⟩ [⟨0⟩]).mState ≠ .OK :=
  low_match_frames_never_ok ⟨5, 2, 2, true⟩ ⟨.OK, 0, 0⟩ [⟨0⟩] rfl
    (by decide) (by decide)

/-- Counterexample to claim C1 as stated: in a vision-only session with
minimum-inlier threshold 5 and relocalization-failure bound 2, starting
from `OK`, three consecutive frames with 0 matches (each below the
threshold) drive the state to `NOT_INITIALIZED` — the new-map escalation
of spec sections 4.8 and 7 — which is neither `RECENTLY_LOST` nor
`LOST`. -/
theorem low_match_frames_counterexample :
    (∀ f ∈ [(⟨0⟩ : FrameObs), ⟨0⟩, ⟨0⟩], f.nMatches < 5) ∧
    (recRun ⟨5, 2, 2, false⟩ ⟨.OK, 0, 0⟩ [⟨0⟩, ⟨0⟩, ⟨0⟩]).mState = .NOT_INITIALIZED ∧
    ¬ ((recRun ⟨5, 2, 2, false⟩ ⟨.OK, 0, 0⟩ [⟨0⟩, ⟨0⟩, ⟨0⟩]).mState = .RECENTLY_LOST ∨
       (recRun ⟨5, 2, 2, false⟩ ⟨.OK, 0, 0⟩ [⟨0⟩, ⟨0⟩, ⟨0⟩]).mState = .LOST) := by
  decide

theorem recRun_lost_stays (cfg : RecoveryCfg) (f : FrameObs)
    (hlow : f.nMatches < cfg.minInliers) :
    ∀ (j r lf : Nat), j + r < cfg.relocFailBound →
    recRun cfg ⟨.LOST, lf, r⟩ (List.replicate j f) = ⟨.LOST, lf, r + j⟩ := by
  have hnot : ¬ cfg.minInliers ≤ f.nMatches := by omega
  intro j
  induction j with
  | zero => intro r lf _; simp [recRun]
  | succ j ih =>
      intro r lf h
      have hstep : recStep cfg ⟨.LOST, lf, r⟩ f = ⟨.LOST, lf, r + 1⟩ := by
        have hnb : ¬ cfg.relocFailBound ≤ r + 1 := by omega
        simp [recStep, hnot, hnb]
      have : recRun cfg ⟨.LOST, lf, r⟩ (List.replicate (j + 1) f) =
          recRun cfg (recStep cfg ⟨.LOST, lf, r⟩ f) (List.replicate j f) := by
        simp [recRun, List.replicate_succ]
      rw [this, hstep]
      have := ih (r + 1) lf (by omega)
      rw [this]
      congr 1
      omega

/-- Claim C7 (amended): in a vision-only session without sensor fusion,
on the first frame after reaching `OK` whose tracking fails (fewer
matches than the minimum-inlier threshold), the state transitions
directly to `LOST` with no intervening `RECENTLY_LOST` grace period; the
state then remains `LOST` for subsequent such frames only while the count
of consecutive relocalization failures stays below the configured bound,
after which the session abandons the map and re-enters `NOT_INITIALIZED`
(new-map escalation, spec sections 4.8 and 7). -/
theorem vision_only_immediate_lost (cfg : RecoveryCfg) (s : RecState) (f : FrameObs)
    (hf : cfg.fused = false) (hb : 1 ≤ cfg.relocFailBound)
    (hs : s.mState = .OK) (hlow : f.nMatches < cfg.minInliers) :
    (recStep cfg s f).mState = .LOST ∧
    (∀ j : Nat, j < cfg.relocFailBound →
      (recRun cfg s (List.replicate (j + 1) f)).mState = .LOST) ∧
    (recRun cfg s (List.replicate (cfg.relocFailBound + 1) f)).mState =
      .NOT_INITIALIZED := by
  obtain ⟨ms, lf, rf⟩ := s
  simp only at hs
  subst hs
  have hnot : ¬ cfg.minInliers ≤ f.nMatches := by omega
  have hstep : recStep cfg ⟨.OK, lf, rf⟩ f = ⟨.LOST, 0, 0⟩ := by
    simp [recStep, hnot, hf]
  have hcons : ∀ n : Nat, recRun cfg ⟨.OK, lf, rf⟩ (List.replicate (n + 1) f) =
      recRun cfg ⟨.LOST, 0, 0⟩ (List.replicate n f) := by
    intro n
    simp [recRun, List.replicate_succ, hstep.symm]
  refine ⟨by rw [hstep], fun j hj => ?_, ?_⟩
  · rw [hcons j, recRun_lost_stays cfg f hlow j 0 0 (by omega)]
  · obtain ⟨k, hk⟩ : ∃ k, cfg.relocFailBound = k + 1 := ⟨cfg.relocFailBound - 1, by omega⟩
    rw [hk]
    rw [hcons (k + 1)]
    have hsplit : List.replicate (k + 1) f = List.replicate k f ++ [f] :=
      List.replicate_succ' k f
    rw [hsplit]
    have hrun : recRun cfg ⟨.LOST, 0, 0⟩ (List.replicate k f ++ [f]) =
        recRun cfg (recRun cfg ⟨.LOST, 0, 0⟩ (List.replicate k f)) [f] := by
      simp [recRun]
    rw [hrun, recRun_lost_stays cfg f hlow k 0 0 (by omega)]
    have hnb : cfg.relocFailBound ≤ k + 1 := by omega
    simp [recRun, recStep, hnot, hnb]

/-- Witness for claim C7's amended theorem at a concrete input: a
vision-only session with minimum-inlier threshold 5 and
relocalization-failure bound 2, starting in `OK`, fed frames with 0
matches: the first such frame yields `LOST` directly, the state is still
`LOST` after two such frames, and after three such frames the session has
re-entered `NOT_INITIALIZED`. -/
theorem vision_only_immediate_lost_witness :
    (recStep ⟨5, 2, 2, false⟩ ⟨.OK, 0, 0⟩ ⟨0⟩).mState = .LOST ∧
    (recRun ⟨5, 2, 2, false⟩ ⟨.OK, 0, 0⟩ (List.replicate 2 ⟨0⟩)).mState = .LOST ∧
    (recRun ⟨5, 2, 2, false⟩ ⟨.OK, 0, 0⟩ (List.replicate 3 ⟨0⟩)).mState =
      .NOT_INITIALIZED :=
  ⟨(vision_only_immediate_lost ⟨5, 2, 2, false⟩ ⟨.OK, 0, 0⟩ ⟨0⟩ rfl (by decide) rfl
      (by decide)).1,
   (vision_only_immediate_lost ⟨5, 2, 2, false⟩ ⟨.OK, 0, 0⟩ ⟨0⟩ rfl (by decide) rfl
      (by decide)).2.1 1 (by decide),
   (vision_only_immediate_lost ⟨5, 2, 2, false⟩ ⟨.OK, 0, 0⟩ ⟨0⟩ rfl (by decide) rfl
      (by decide)).2.2⟩

/-- Counterexample to claim C7 as stated: in a vision-only session
(minimum-inlier threshold 5, relocalization-failure bound 2) the first
zero-match frame after `OK` does take the state directly to `LOST`, but
the state does NOT remain `LOST` for all subsequent zero-match frames:
after three such frames the bounded relocalization-failure escalation has
moved it to `NOT_INITIALIZED`. -/
theorem vision_only_remains_lost_counterexample :
    (recStep ⟨5, 2, 2, false⟩ ⟨.OK, 0, 0⟩ ⟨0⟩).mState = .LOST ∧
    (recRun ⟨5, 2, 2, false⟩ ⟨.OK, 0, 0⟩ (List.replicate 3 ⟨0⟩)).mState ≠ .LOST := by
  decide

/-- Modelled from the spec: the map graph queried by the missing bodies of
`UpdateLocalMap`, `UpdateLocalKeyFrames` and `UpdateLocalPoints` (spec
sections 3 and 4.5).  `kfObs` associates each keyframe identifier with the
landmark identifiers it observes; `covis` associates each keyframe with
its direct covisibility neighbors. -/
structure MapGraph where
  kfObs : List (Nat × List Nat)
  covis : List (Nat × List Nat)
deriving DecidableEq, Repr

/-- Modelled from the spec: the part of the current frame the Local Map
Manager reads — the per-keypoint optional links to observed landmarks
(spec section 3, Frame). -/
structure LocalFrame where
  links : List (Option Nat)
deriving DecidableEq, Repr

/-- The landmarks a keyframe observes, looked up in the map graph. -/
def obsOf (m : MapGraph) (kf : Nat) : List Nat :=
  match m.kfObs.find? (fun p => p.fst == kf) with
  | some p => p.snd
  | none => []

/-- The direct covisibility neighbors of a keyframe. -/
def covisOf (m : MapGraph) (kf : Nat) : List Nat :=
  match m.covis.find? (fun p => p.fst == kf) with
  | some p => p.snd
  | none => []

/-- The landmarks the current frame links to (its matched keypoints). -/
def frameLandmarks (fr : LocalFrame) : List Nat :=
  fr.links.filterMap id

/-- Modelled from the spec: the vote count of a keyframe — the number of
the current frame's linked landmarks that the keyframe observes (spec
section 4.5, `UpdateLocalKeyFrames`). -/
def kfVotes (m : MapGraph) (fr : LocalFrame) (kf : Nat) : Nat :=
  (frameLandmarks fr).countP (fun lm => (obsOf m kf).contains lm)

/-- The keyframes of the map that share at least one landmark observation
with the current frame. -/
def voters (m : MapGraph) (fr : LocalFrame) : List Nat :=
  (m.kfObs.map Prod.fst).filter (fun kf => kfVotes m fr kf != 0)

/-- Modelled from the spec: the new Reference Keyframe is the top-voted
keyframe, ties broken by higher vote count and then by more recent
creation, i.e. larger keyframe identifier (spec section 4.5). -/
def pickReferenceKF (m : MapGraph) (fr : LocalFrame) : Option Nat :=
  (voters m fr).foldl
    (fun best kf =>
      match best with
      | none => some kf
      | some b =>
          if kfVotes m fr b < kfVotes m fr kf ∨
             (kfVotes m fr b = kfVotes m fr kf ∧ b < kf) then some kf else some b)
    none

/-- Modelled from the spec: the local keyframe set is the set of voters
expanded with the reference keyframe's direct covisibility neighbors up
to a bounded count, deduplicated (spec section 4.5). -/
def localKeyFrames (bound : Nat) (m : MapGraph) (fr : LocalFrame) : List Nat :=
  (voters m fr ++
    (match pickReferenceKF m fr with
     | some r => (covisOf m r).take bound
     | none => [])).dedup

/-- Modelled from the spec: the Local Map's landmark set is exactly the
union of the landmarks observed by the local keyframe set, deduplicated
(spec section 4.5, `UpdateLocalPoints`). -/
def localPoints (m : MapGraph) (kfs : List Nat) : List Nat :=
  (kfs.map (obsOf m)).flatten.dedup

/-- Modelled from the spec: the Local Map fields of the tracking state
written by the missing `UpdateLocalMap` body — the map-updated signal
(header line 398), the Reference Keyframe (header line 439) and the local
keyframe and landmark sets (header lines 440-441). -/
structure LocalMapState where
  mbMapUpdated : Bool
  mpReferenceKF : Option Nat
  mvpLocalKeyFrames : List Nat
  mvpLocalMapPoints : List Nat
deriving DecidableEq, Repr

/-- Modelled from the spec: the missing body of `UpdateLocalMap` (header
line 329).  The Local Map is rebuilt from scratch every frame as a
function of the current frame and the map graph — never incrementally
patched — and the map-updated signal, if raised, is observed and cleared
before the recompute (spec sections 4.5 and 5). -/
def UpdateLocalMap (bound : Nat) (m : MapGraph) (fr : LocalFrame)
    (st : LocalMapState) : LocalMapState :=
  let kfs := localKeyFrames bound m fr
  { st with
    mbMapUpdated := false,
    mpReferenceKF := pickReferenceKF m fr,
    mvpLocalKeyFrames := kfs,
    mvpLocalMapPoints := localPoints m kfs }

/-- Claim C3: for every tracking state in which the map-updated signal is
not raised, running the Local Map recomputation twice in succession
yields the same local keyframe set and the same local landmark set as
running it once — the second recomputation leaves `mvpLocalKeyFrames`,
`mvpLocalMapPoints` (and the Reference Keyframe) unchanged. -/
theorem UpdateLocalMap_idempotent (bound : Nat) (m : MapGraph) (fr : LocalFrame)
    (st : LocalMapState) (h : st.mbMapUpdated = false) :
    (UpdateLocalMap bound m fr (UpdateLocalMap bound m fr st)).mvpLocalKeyFrames =
      (UpdateLocalMap bound m fr st).mvpLocalKeyFrames ∧
    (UpdateLocalMap bound m fr (UpdateLocalMap bound m fr st)).mvpLocalMapPoints =
      (UpdateLocalMap bound m fr st).mvpLocalMapPoints ∧
    UpdateLocalMap bound m fr (UpdateLocalMap bound m fr st) =
      UpdateLocalMap bound m fr st :=
  ⟨rfl, rfl, rfl⟩

/-- Witness for claim C3's theorem at a concrete input: a two-keyframe
map, a frame linking two landmarks, and a local map state with the
map-updated signal not raised. -/
theorem UpdateLocalMap_idempotent_witness :
    (UpdateLocalMap 8 ⟨[(1, [10, 11]), (2, [11, 12])], [(1, [2]), (2, [1])]⟩
        ⟨[some 10, none, some 11]⟩
        (UpdateLocalMap 8 ⟨[(1, [10, 11]), (2, [11, 12])], [(1, [2]), (2, [1])]⟩
          ⟨[some 10, none, some 11]⟩ ⟨false, none, [], []⟩)).mvpLocalKeyFrames =
      (UpdateLocalMap 8 ⟨[(1, [10, 11]), (2, [11, 12])], [(1, [2]), (2, [1])]⟩
        ⟨[some 10, none, some 11]⟩ ⟨false, none, [], []⟩).mvpLocalKeyFrames ∧
    (UpdateLocalMap 8 ⟨[(1, [10, 11]), (2, [11, 12])], [(1, [2]), (2, [1])]⟩
        ⟨[some 10, none, some 11]⟩
        (UpdateLocalMap 8 ⟨[(1, [10, 11]), (2, [11, 12])], [(1, [2]), (2, [1])]⟩
          ⟨[some 10, none, some 11]⟩ ⟨false, none, [], []⟩)).mvpLocalMapPoints =
      (UpdateLocalMap 8 ⟨[(1, [10, 11]), (2, [11, 12])], [(1, [2]), (2, [1])]⟩
        ⟨[some 10, none, some 11]⟩ ⟨false, none, [], []⟩).mvpLocalMapPoints ∧
    UpdateLocalMap 8 ⟨[(1, [10, 11]), (2, [11, 12])], [(1, [2]), (2, [1])]⟩
        ⟨[some 10, none, some 11]⟩
        (UpdateLocalMap 8 ⟨[(1, [10, 11]), (2, [11, 12])], [(1, [2]), (2, [1])]⟩
          ⟨[some 10, none, some 11]⟩ ⟨false, none, [], []⟩) =
      UpdateLocalMap 8 ⟨[(1, [10, 11]), (2, [11, 12])], [(1, [2]), (2, [1])]⟩
        ⟨[some 10, none, some 11]⟩ ⟨false, none, [], []⟩ :=
  UpdateLocalMap_idempotent 8 ⟨[(1, [10, 11]), (2, [11, 12])], [(1, [2]), (2, [1])]⟩
    ⟨[some 10, none, some 11]⟩ ⟨false, none, [], []⟩ rfl

/-- Modelled from the spec: the configuration of the Keyframe Policy for
the missing body of `NeedNewKeyFrame` (header line 366) — the minimum and
maximum frame spacing `mMinFrames` / `mMaxFrames` (header lines 461-462),
the novel-viewpoint ratio against the reference keyframe's observation
count as a fraction `refNum / refDen` (spec section 4.7 trigger (b)), and
the back-pressure saturation threshold of the background refiner's queue
(spec sections 4.7 and 9). -/
structure KFPolicyCfg where
  mMinFrames : Nat
  mMaxFrames : Nat
  refNum : Nat
  refDen : Nat
  queueCap : Nat
deriving DecidableEq, Repr

/-- Modelled from the spec: the per-frame inputs of the Keyframe Policy —
the frame identifier, the inlier count of this frame, the reference
keyframe's observation count, and the sampled length of the background
refiner's input queue (spec sections 4.7 and 6). -/
structure KFFrame where
  id : Nat
  inliers : Nat
  refObs : Nat
  queueLen : Nat
deriving DecidableEq, Repr

/-- Modelled from the spec: the tracking-side state the Keyframe Policy
reads and writes — whether the session uses inertial sensor fusion,
whether sensor fusion has been initialized, the identifier of the frame
that produced the last keyframe (`mnLastKeyFrameId`, header line 480),
and the ordered log of frame identifiers promoted to keyframes. -/
structure KFState where
  isInertial : Bool
  imuInitialized : Bool
  mnLastKeyFrameId : Nat
  kfLog : List Nat
deriving DecidableEq, Repr

/-- Modelled from the spec: insertion is forced regardless of spacing and
backlog exactly when the session fuses inertial data and sensor fusion is
not yet initialized, to guarantee initialization progress (spec sections
4.7 and 8). -/
def forcedInsertion (st : KFState) : Bool :=
  st.isInertial && !st.imuInitialized

/-- Modelled from the spec: trigger (a) lower bound — at least the
minimum frame interval elapsed since the last keyframe (spec section
4.7). -/
def spacingDue (cfg : KFPolicyCfg) (st : KFState) (f : KFFrame) : Bool :=
  decide (st.mnLastKeyFrameId + cfg.mMinFrames ≤ f.id)

/-- Modelled from the spec: trigger (a) upper bound — the frame-count
ceiling that forces insertion even with good tracking (spec section
4.7). -/
def ceilingDue (cfg : KFPolicyCfg) (st : KFState) (f : KFFrame) : Bool :=
  decide (st.mnLastKeyFrameId + cfg.mMaxFrames ≤ f.id)

/-- Modelled from the spec: trigger (b) — the current inlier count is low
relative to the reference keyframe's observation count, signaling a novel
viewpoint (spec section 4.7). -/
def novelViewpoint (cfg : KFPolicyCfg) (f : KFFrame) : Bool :=
  decide (f.inliers * cfg.refDen < f.refObs * cfg.refNum)

/-- Modelled from the spec: the back-pressure check (c) — the background
refiner's input queue is not saturated (spec section 4.7). -/
def queueFree (cfg : KFPolicyCfg) (f : KFFrame) : Bool :=
  decide (f.queueLen < cfg.queueCap)

/-- Modelled from the spec: the non-queue keyframe-insertion conditions —
either the frame-count ceiling forces insertion, or the minimum spacing
has elapsed and the viewpoint is novel (spec section 4.7, triggers (a)
and (b)). -/
def insertionDue (cfg : KFPolicyCfg) (st : KFState) (f : KFFrame) : Bool :=
  ceilingDue cfg st f || (spacingDue cfg st f && novelViewpoint cfg f)

/-- Modelled from the spec: the missing body of `NeedNewKeyFrame` (header
line 366).  When sensor fusion is not yet initialized in an inertial
session, insertion is forced regardless of spacing and backlog; otherwise
the insertion conditions must hold and the background refiner's queue
must not be saturated — a saturated queue defers the insertion (spec
section 4.7). -/
def NeedNewKeyFrame (cfg : KFPolicyCfg) (st : KFState) (f : KFFrame) : Bool :=
  if forcedInsertion st then true
  else insertionDue cfg st f && queueFree cfg f

/-- Modelled from the spec: one frame of the keyframe-policy loop — if
`NeedNewKeyFrame` holds, the current frame is promoted, `mnLastKeyFrameId`
is updated and the promotion is logged; otherwise the state is left
unchanged (insertion deferred, nothing recorded). -/
def kfStep (cfg : KFPolicyCfg) (st : KFState) (f : KFFrame) : KFState :=
  if NeedNewKeyFrame cfg st f then
    { st with mnLastKeyFrameId := f.id, kfLog := st.kfLog ++ [f.id] }
  else st

/-- Modelled from the spec: the keyframe-policy loop over a sequence of
frames. -/
def kfRun (cfg : KFPolicyCfg) (st : KFState) (fs : List KFFrame) : KFState :=
  fs.foldl (kfStep cfg) st

/-- The invariant of the keyframe-policy loop: consecutive logged
keyframe frame-ids are at least `mMinFrames` apart, and the last logged
id is `mnLastKeyFrameId`. -/
def kfSpacingInv (cfg : KFPolicyCfg) (st : KFState) : Prop :=
  List.Chain' (fun a b => a + cfg.mMinFrames ≤ b) st.kfLog ∧
  ∀ x ∈ st.kfLog.getLast?, x = st.mnLastKeyFrameId

theorem kfStep_spacing_inv (cfg : KFPolicyCfg) (st : KFState) (f : KFFrame)
    (hmm : cfg.mMinFrames ≤ cfg.mMaxFrames)
    (himu : st.imuInitialized = true)
    (hinv : kfSpacingInv cfg st) : kfSpacingInv cfg (kfStep cfg st f) := by
  by_cases hneed : NeedNewKeyFrame cfg st f = true
  · have hforce : forcedInsertion st = false := by
      simp [forcedInsertion, himu]
    have hdue : insertionDue cfg st f = true := by
      have := hneed
      simp [NeedNewKeyFrame, hforce] at this
      exact this.1
    have hspace : st.mnLastKeyFrameId + cfg.mMinFrames ≤ f.id := by
      have hdue2 : ceilingDue cfg st f = true ∨
          (spacingDue cfg st f = true ∧ novelViewpoint cfg f = true) := by
        simpa [insertionDue] using hdue
      rcases hdue2 with hc | ⟨hs, _⟩
      · simp only [ceilingDue, decide_eq_true_eq] at hc
        omega
      · simp only [spacingDue, decide_eq_true_eq] at hs
        omega
    obtain ⟨hchain, hlast⟩ := hinv
    constructor
    · simp only [kfStep, hneed, if_true]
      rw [List.chain'_append]
      refine ⟨hchain, List.chain'_singleton _, ?_⟩
      intro x hx y hy
      simp only [List.head?_cons, Option.mem_def, Option.some.injEq] at hy
      subst hy
      rw [hlast x hx]
      exact hspace
    · simp only [kfStep, hneed, if_true]
      intro x hx
      rw [List.getLast?_concat] at hx
      simp only [Option.mem_def, Option.some.injEq] at hx
      exact hx.symm
  · simp only [kfStep, hneed, if_false]
    exact hinv

theorem kfRun_spacing_inv (cfg : KFPolicyCfg)
    (hmm : cfg.mMinFrames ≤ cfg.mMaxFrames) :
    ∀ (fs : List KFFrame) (st : KFState), st.imuInitialized = true →
    kfSpacingInv cfg st → kfSpacingInv cfg (kfRun cfg st fs) := by
  intro fs
  induction fs with
  | nil => intro st _ hinv; exact hinv
  | cons f fs ih =>
      intro st himu hinv
      have hstep := kfStep_spacing_inv cfg st f hmm himu hinv
      have himu2 : (kfStep cfg st f).imuInitialized = true := by
        unfold kfStep
        split <;> simpa using himu
      exact ih (kfStep cfg st f) himu2 hstep

/-- Claim C4: in every execution in which sensor fusion is initialized,
any two consecutively created keyframes originate from frames whose
frame-ids differ by at least the configured minimum frame interval
`mMinFrames` (provided the minimum spacing does not exceed the forcing
ceiling `mMaxFrames`); and when sensor fusion is uninitialized, forced
insertion may violate this spacing. -/
theorem keyframe_min_spacing :
    (∀ (cfg : KFPolicyCfg) (st0 : KFState) (fs : List KFFrame),
      cfg.mMinFrames ≤ cfg.mMaxFrames → st0.imuInitialized = true →
      st0.kfLog = [] →
      List.Chain' (fun a b => a + cfg.mMinFrames ≤ b) (kfRun cfg st0 fs).kfLog) ∧
    (∃ (cfg : KFPolicyCfg) (st0 : KFState) (fs : List KFFrame),
      st0.imuInitialized = false ∧
      ¬ List.Chain' (fun a b => a + cfg.mMinFrames ≤ b) (kfRun cfg st0 fs).kfLog) := by
  constructor
  · intro cfg st0 fs hmm himu hlog
    have hinv0 : kfSpacingInv cfg st0 := by
      constructor
      · rw [hlog]; exact List.chain'_nil
      · rw [hlog]; intro x hx; simp at hx
    exact (kfRun_spacing_inv cfg hmm fs st0 himu hinv0).1
  · refine ⟨⟨5, 10, 1, 1, 10⟩, ⟨true, false, 0, []⟩, [⟨1, 0, 0, 0⟩, ⟨2, 0, 0, 0⟩], rfl, ?_⟩
    have hlog : (kfRun ⟨5, 10, 1, 1, 10⟩ ⟨true, false, 0, []⟩
        [⟨1, 0, 0, 0⟩, ⟨2, 0, 0, 0⟩]).kfLog = [1, 2] := rfl
    rw [hlog]
    intro h
    exact absurd (List.chain'_cons.mp h).1 (by decide)

/-- Witness for claim C4's theorem at a concrete input: with minimum
spacing 3, ceiling 10, an initialized fused session and three frames with
ids 4, 5 and 9, the run's keyframe log satisfies the spacing chain. -/
theorem keyframe_min_spacing_witness :
    List.Chain' (fun a b => a + (3 : Nat) ≤ b)
      (kfRun ⟨3, 10, 1, 1, 5⟩ ⟨false, true, 0, []⟩
        [⟨4, 0, 9, 0⟩, ⟨5, 0, 9, 0⟩, ⟨9, 0, 9, 0⟩]).kfLog :=
  keyframe_min_spacing.1 ⟨3, 10, 1, 1, 5⟩ ⟨false, true, 0, []⟩
    [⟨4, 0, 9, 0⟩, ⟨5, 0, 9, 0⟩, ⟨9, 0, 9, 0⟩] (by decide) rfl rfl

/-- Claim C5: when the keyframe-insertion conditions hold but the
background refiner's queue is saturated, `NeedNewKeyFrame` defers — it
answers false and the deferral changes nothing in the tracking state, so
on any later frame with the insertion conditions still holding and the
queue drained the keyframe is created — except when sensor fusion is not
yet initialized in an inertial session, in which case `NeedNewKeyFrame`
answers true on the current frame regardless of queue backlog. -/
theorem keyframe_backpressure_defers :
    (∀ (cfg : KFPolicyCfg) (st : KFState) (f : KFFrame),
      forcedInsertion st = false →
      insertionDue cfg st f = true →
      queueFree cfg f = false →
      NeedNewKeyFrame cfg st f = false ∧
      kfStep cfg st f = st ∧
      (∀ f' : KFFrame, insertionDue cfg st f' = true → queueFree cfg f' = true →
        NeedNewKeyFrame cfg st f' = true ∧
        (kfStep cfg st f').kfLog = st.kfLog ++ [f'.id])) ∧
    (∀ (cfg : KFPolicyCfg) (st : KFState) (f : KFFrame),
      forcedInsertion st = true → NeedNewKeyFrame cfg st f = true) := by
  constructor
  · intro cfg st f hforce hdue hsat
    have hneed : NeedNewKeyFrame cfg st f = false := by
      simp [NeedNewKeyFrame, hforce, hsat]
    refine ⟨hneed, by simp [kfStep, hneed], ?_⟩
    intro f' hdue2 hfree2
    have hneed2 : NeedNewKeyFrame cfg st f' = true := by
      simp [NeedNewKeyFrame, hforce, hdue2, hfree2]
    exact ⟨hneed2, by simp [kfStep, hneed2]⟩
  · intro cfg st f hforce
    simp [NeedNewKeyFrame, hforce]

/-- Witness for claim C5's theorem at a concrete input: with minimum
spacing 3 and queue capacity 5, an initialized inertial session defers a
due insertion while the queue holds 5 entries, performs it on a later
frame with the queue drained, and an uninitialized inertial session
inserts even with the queue saturated. -/
theorem keyframe_backpressure_defers_witness :
    NeedNewKeyFrame ⟨3, 10, 1, 1, 5⟩ ⟨true, true, 0, []⟩ ⟨4, 0, 9, 5⟩ = false ∧
    NeedNewKeyFrame ⟨3, 10, 1, 1, 5⟩ ⟨true, true, 0, []⟩ ⟨6, 0, 9, 0⟩ = true ∧
    NeedNewKeyFrame ⟨3, 10, 1, 1, 5⟩ ⟨true, false, 0, []⟩ ⟨1, 0, 9, 5⟩ = true :=
  ⟨(keyframe_backpressure_defers.1 ⟨3, 10, 1, 1, 5⟩ ⟨true, true, 0, []⟩ ⟨4, 0, 9, 5⟩
      (by decide) (by decide) (by decide)).1,
   ((keyframe_backpressure_defers.1 ⟨3, 10, 1, 1, 5⟩ ⟨true, true, 0, []⟩ ⟨4, 0, 9, 5⟩
      (by decide) (by decide) (by decide)).2.2 ⟨6, 0, 9, 0⟩ (by decide) (by decide)).1,
   keyframe_backpressure_defers.2 ⟨3, 10, 1, 1, 5⟩ ⟨true, false, 0, []⟩ ⟨1, 0, 9, 5⟩
      (by decide)⟩

/-- Modelled from the spec: a 3-vector of integer components, used for
the angular-velocity, acceleration, and delta quantities of the Inertial
Preintegrator (spec section 4.2). -/
structure V3 where
  x : Int
  y : Int
  z : Int
deriving DecidableEq, Repr

/-- Componentwise vector addition. -/
def V3.add (a b : V3) : V3 := ⟨a.x + b.x, a.y + b.y, a.z + b.z⟩

/-- Scalar multiplication of a vector. -/
def V3.smul (k : Int) (a : V3) : V3 := ⟨k * a.x, k * a.y, k * a.z⟩

/-- The zero vector. -/
def V3.zero : V3 := ⟨0, 0, 0⟩

/-- Modelled from the spec: one inertial sample of the batch handed to
the missing body of `PreintegrateIMU` (header line 380, queue field
`mvImuFromLastFrame` at header line 407) — angular velocity `w`, linear
acceleration `a`, and the length `dt` of its integration sub-interval
(spec sections 4.1 and 4.2). -/
structure ImuSample where
  w : V3
  a : V3
  dt : Int
deriving DecidableEq, Repr

/-- Modelled from the spec: the Inertial Delta — accumulated rotation,
velocity and position increments over a bounded time span (spec sections
3 and 4.2). -/
structure ImuDelta where
  dR : V3
  dV : V3
  dP : V3
deriving DecidableEq, Repr

/-- The identity Inertial Delta: zero rotation, velocity and position
increment. -/
def identityDelta : ImuDelta := ⟨V3.zero, V3.zero, V3.zero⟩

/-- Modelled from the spec: sequential integration of one sample over its
sub-interval — rotation and velocity accumulate the rates scaled by the
interval, position accumulates the running velocity increment (spec
section 4.2). -/
def integrateSample (d : ImuDelta) (s : ImuSample) : ImuDelta :=
  { dR := d.dR.add (V3.smul s.dt s.w),
    dV := d.dV.add (V3.smul s.dt s.a),
    dP := d.dP.add (V3.smul s.dt d.dV) }

/-- Modelled from the spec: the missing body of `PreintegrateIMU` (header
line 380) folds the time-ordered batch of inertial samples into an
Inertial Delta by sequential integration, starting from the identity
delta (spec section 4.2). -/
def PreintegrateIMU (batch : List ImuSample) : ImuDelta :=
  batch.foldl integrateSample identityDelta

/-- Modelled from the spec: pose (position) prediction for the next frame
— when the pending inertial-sample batch is nonempty the preintegrated
position increment is applied, and when it is empty prediction degrades
to the last known constant-velocity model, stored in the source in
`mVelocity` (header line 494; spec section 4.2, failure clause). -/
def predictPosition (pos mVelocity : V3) (batch : List ImuSample) : V3 :=
  if batch.isEmpty then pos.add mVelocity
  else pos.add (PreintegrateIMU batch).dP

/-- Claim C8: for every frame whose pending inertial-sample batch is
empty, `PreintegrateIMU` produces the identity delta (zero rotation,
velocity and position increment), and pose prediction for that frame
falls back to the last known constant-velocity model. -/
theorem PreintegrateIMU_empty_identity :
    PreintegrateIMU [] = identityDelta ∧
    (∀ pos mVelocity : V3,
      predictPosition pos mVelocity [] = pos.add mVelocity) :=
  ⟨rfl, fun _ _ => rfl⟩

/-- Modelled from the spec: the estimated pose of a Frame — rotation plus
translation components (spec section 3, Frame). -/
structure Pose where
  r : Int
  t : Int
deriving DecidableEq, Repr

/-- Modelled from the spec: the ephemeral Frame snapshot read by the
missing body of `CreateNewKeyFrame` (header line 373, current frame field
`mCurrentFrame` at header line 196) — frame identifier, estimated pose,
and the per-keypoint optional links to observed landmarks (spec section
3, Frame). -/
structure FrameData where
  id : Nat
  pose : Pose
  links : List (Option Nat)
deriving DecidableEq, Repr

/-- Modelled from the spec: a Keyframe — a Frame promoted into the
permanent map, retaining the source frame's identifier, pose and
landmark-observation links, with the keyframe-relative Inertial Delta
attached (spec sections 3 and 4.7). -/
structure KeyFrameData where
  srcFrameId : Nat
  pose : Pose
  observations : List (Option Nat)
  imuDeltaFromLastKF : ImuDelta
deriving DecidableEq, Repr

/-- Modelled from the spec: the tracking-side state the promotion writes
— the current frame, the last-keyframe reference and identifier (header
lines 479-480), the keyframe-relative Inertial Delta accumulator (header
line 401), and the background refiner's input queue (spec section
4.7). -/
structure PromoteState where
  mCurrentFrame : FrameData
  mpLastKeyFrame : Option KeyFrameData
  mnLastKeyFrameId : Nat
  imuAccumulator : ImuDelta
  refinerQueue : List KeyFrameData
deriving DecidableEq, Repr

/-- Modelled from the spec: the missing body of `CreateNewKeyFrame`
(header line 373) — instantiate a Keyframe from the current Frame,
attach the keyframe-relative Inertial Delta, push the keyframe to the
background refiner's queue, record it as the last keyframe, and reset the
keyframe-relative Inertial Delta accumulator (spec section 4.7). -/
def CreateNewKeyFrame (st : PromoteState) : PromoteState × KeyFrameData :=
  let kf : KeyFrameData :=
    { srcFrameId := st.mCurrentFrame.id,
      pose := st.mCurrentFrame.pose,
      observations := st.mCurrentFrame.links,
      imuDeltaFromLastKF := st.imuAccumulator }
  ({ st with
      mpLastKeyFrame := some kf,
      mnLastKeyFrameId := st.mCurrentFrame.id,
      imuAccumulator := identityDelta,
      refinerQueue := st.refinerQueue ++ [kf] },
   kf)

/-- Claim C6: for every frame promoted by `CreateNewKeyFrame`, the newly
constructed keyframe's pose equals the current frame's pose at the moment
of promotion, and its per-keypoint landmark observations — hence the set
of observed landmarks — equal the frame's per-keypoint landmark links at
that moment. -/
theorem CreateNewKeyFrame_round_trip (st : PromoteState) :
    (CreateNewKeyFrame st).2.pose = st.mCurrentFrame.pose ∧
    (CreateNewKeyFrame st).2.observations = st.mCurrentFrame.links ∧
    (CreateNewKeyFrame st).2.observations.filterMap id =
      st.mCurrentFrame.links.filterMap id ∧
    (CreateNewKeyFrame st).1.mpLastKeyFrame = some (CreateNewKeyFrame st).2 :=
  ⟨rfl, rfl, rfl, rfl⟩

/-- Modelled from the spec: the configurable minimum number of valid
depth-backed keypoints required by depth-capable single-frame
initialization (spec section 4.3). -/
structure StereoInitCfg where
  minDepthPts : Nat
deriving DecidableEq, Repr

/-- Modelled from the spec: the state the initializer reads and writes —
the tracking state and the number of keyframes created so far. -/
structure InitState where
  mState : eTrackingState
  nKeyFrames : Nat
deriving DecidableEq, Repr

/-- Modelled from the spec: the per-frame input of depth-capable
initialization — the number of keypoints with valid depth in the current
frame (spec section 4.3). -/
structure DepthFrame where
  validDepthPts : Nat
deriving DecidableEq, Repr

/-- Modelled from the spec: the missing body of `StereoInitialization`
(header line 285).  In state `NOT_INITIALIZED`, a single frame with at
least the configured minimum of valid depth-backed keypoints succeeds
unconditionally: the state becomes `OK` and exactly one keyframe is
created; with fewer, the state remains `NOT_INITIALIZED` and no keyframe
is created (spec section 4.3). -/
def StereoInitialization (cfg : StereoInitCfg) (st : InitState)
    (f : DepthFrame) : InitState :=
  if st.mState = .NOT_INITIALIZED then
    if cfg.minDepthPts ≤ f.validDepthPts then ⟨.OK, st.nKeyFrames + 1⟩ else st
  else st

/-- Claim C9: for every depth-capable session in state `NOT_INITIALIZED`,
a single frame with at least the configured minimum number of valid
depth-backed keypoints transitions the state to `OK` after exactly that
one frame and creates exactly one keyframe; with fewer than the minimum,
the state remains `NOT_INITIALIZED` and no keyframe is created. -/
theorem StereoInitialization_single_frame (cfg : StereoInitCfg)
    (st : InitState) (f : DepthFrame) (h : st.mState = .NOT_INITIALIZED) :
    (cfg.minDepthPts ≤ f.validDepthPts →
      (StereoInitialization cfg st f).mState = .OK ∧
      (StereoInitialization cfg st f).nKeyFrames = st.nKeyFrames + 1) ∧
    (f.validDepthPts < cfg.minDepthPts →
      (StereoInitialization cfg st f).mState = .NOT_INITIALIZED ∧
      (StereoInitialization cfg st f).nKeyFrames = st.nKeyFrames) := by
  constructor
  · intro hge
    simp [StereoInitialization, h, hge]
  · intro hlt
    have hnot : ¬ cfg.minDepthPts ≤ f.validDepthPts := by omega
    simp [StereoInitialization, h, hnot]

/-- Witness for claim C9's theorem at a concrete input: with the minimum
set to 100 depth keypoints, a frame with 150 such keypoints initializes
(state `OK`, one keyframe), while a frame with 99 leaves the session
uninitialized with no keyframe. -/
theorem StereoInitialization_single_frame_witness :
    ((StereoInitialization ⟨100⟩ ⟨.NOT_INITIALIZED, 0⟩ ⟨150⟩).mState = .OK ∧
     (StereoInitialization ⟨100⟩ ⟨.NOT_INITIALIZED, 0⟩ ⟨150⟩).nKeyFrames = 1) ∧
    ((StereoInitialization ⟨100⟩ ⟨.NOT_INITIALIZED, 0⟩ ⟨99⟩).mState =
        .NOT_INITIALIZED ∧
     (StereoInitialization ⟨100⟩ ⟨.NOT_INITIALIZED, 0⟩ ⟨99⟩).nKeyFrames = 0) :=
  ⟨(StereoInitialization_single_frame ⟨100⟩ ⟨.NOT_INITIALIZED, 0⟩ ⟨150⟩ rfl).1
      (by decide),
   (StereoInitialization_single_frame ⟨100⟩ ⟨.NOT_INITIALIZED, 0⟩ ⟨99⟩ rfl).2
      (by decide)⟩

end Tracking
